import Mathlib

/-!
Verification of the PerfKitBenchmarker resource-orchestration core.

Shallow embedding of:
  src/perfkitbenchmarker/benchmark_spec.py
  src/perfkitbenchmarker/disk.py
  src/perfkitbenchmarker/providers/gcp/gce_virtual_machine.py

Python dynamic values are embedded as follows: a value that may be `None`
becomes `Option`, Python `x or y` becomes an explicit truthiness test,
Python exceptions become `Except`, and mutation becomes explicit state
passing.  A gflags flag object is a record carrying the `present` bit
(whether the flag was explicitly supplied on invocation) and the current
`value` (which gflags sets to the default when the flag is not supplied).
-/

namespace PKB

/-! ## Python truthiness helpers -/

/-- Python truthiness of a value that is either `None` or a string:
`None` and the empty string are falsy. -/
def pyTruthyOptStr : Option String → Bool
  | none => false
  | some s => s != ""

/-- Python truthiness of a value that is either `None` or an int:
`None` and `0` are falsy. -/
def pyTruthyOptInt : Option Int → Bool
  | none => false
  | some n => n != 0

/-- Python `a or b` for two optional strings. -/
def pyOrOptStr (a b : Option String) : Option String :=
  if pyTruthyOptStr a then a else b

/-- Python `a or b` for two optional ints. -/
def pyOrOptInt (a b : Option Int) : Option Int :=
  if pyTruthyOptInt a then a else b

/-- Python `a or b` where `a` is an optional int and `b` is an int
(the result is the unwrapped int, as in `flags.num_striped_disks or
self.num_striped_disks`). -/
def pyOrIntFromOpt (a : Option Int) (b : Int) : Int :=
  match a with
  | none => b
  | some n => if n != 0 then n else b

/-! ## gflags flag cells -/

/-- A string-valued flag cell: `present` is true when the flag was
explicitly supplied on invocation; `value` is the current value
(`none` models a `None` default). -/
structure FlagStr where
  present : Bool
  value : Option String
deriving Repr, DecidableEq

/-- An integer-valued flag cell whose value may be `None`. -/
structure FlagInt where
  present : Bool
  value : Option Int
deriving Repr, DecidableEq

/-- An integer-valued flag cell with a non-`None` value. -/
structure FlagIntT where
  present : Bool
  value : Int
deriving Repr, DecidableEq

/-- A boolean-valued flag cell. -/
structure FlagBool where
  present : Bool
  value : Bool
deriving Repr, DecidableEq

/-- An enum-valued flag cell (e.g. `--cloud`, `--os_type`): gflags keeps
`value = defaultValue` until the flag is explicitly supplied. -/
structure FlagEnum where
  present : Bool
  value : String
  defaultValue : String
deriving Repr, DecidableEq

/-- The process-wide flag values consulted by the `ApplyFlags` methods
under verification (`disk.py` lines 139-144 and
`gce_virtual_machine.py` lines 72-79). -/
structure PkbFlags where
  disk_size : FlagInt
  disk_type : FlagStr
  num_striped_disks : FlagInt
  scratch_dir : FlagStr
  project : FlagStr
  gce_num_local_ssds : FlagIntT
  gce_preemptible_vms : FlagBool
  image : FlagStr
  machine_type : FlagStr
  zone : FlagStr
deriving Repr, DecidableEq

/-! ## disk.py: disk type names and BaseDiskSpec -/

def EPHEMERAL_HDD : String := "ephemeral_hdd"
def EPHEMERAL_SSD : String := "ephemeral_ssd"
def BUILDING_REPLICATED_HDD : String := "building_replicated_hdd"
def BUILDING_REPLICATED_SSD : String := "building_replicated_ssd"
def STANDARD : String := "standard"
def REMOTE_SSD : String := "remote_ssd"
def PIOPS : String := "piops"
def LOCAL : String := "local"

/-- `disk.DiskTypeIsLocal` (disk.py lines 35-36): membership in the set
of the two ephemeral new-style disk type names. -/
def DiskTypeIsLocal (disk_type : String) : Bool :=
  disk_type == EPHEMERAL_HDD || disk_type == EPHEMERAL_SSD

/-- `disk.BaseDiskSpec.__init__` (disk.py lines 119-137); the structure
defaults are the Python keyword defaults. -/
structure BaseDiskSpec where
  disk_size : Option Int := none
  disk_type : Option String := none
  mount_point : Option String := none
  num_striped_disks : Int := 1
  disk_number : Option Int := none
  device_path : Option String := none
deriving Repr, DecidableEq, Inhabited

/-- `disk.BaseDiskSpec.ApplyFlags` (disk.py lines 139-144): every field
is overlaid with Python `or`, i.e. the flag value wins whenever it is
truthy, independently of whether the flag was explicitly supplied. -/
def BaseDiskSpec.ApplyFlags (s : BaseDiskSpec) (f : PkbFlags) : BaseDiskSpec :=
  { s with
    disk_size := pyOrOptInt f.disk_size.value s.disk_size
    disk_type := pyOrOptStr f.disk_type.value s.disk_type
    num_striped_disks := pyOrIntFromOpt f.num_striped_disks.value s.num_striped_disks
    mount_point := pyOrOptStr f.scratch_dir.value s.mount_point }

/-! ## virtual_machine.BaseVmSpec and GceVmSpec -/

/-- Modelled from the spec: perfkitbenchmarker/virtual_machine.py
(`BaseVmSpec`) is not under src/.  Per the design spec (section 3, Data
Model) a VM spec carries machine-type / image / zone-like base fields. -/
structure BaseVmSpec where
  image : Option String := none
  machine_type : Option String := none
  zone : Option String := none
deriving Repr, DecidableEq

/-- Modelled from the spec: `BaseVmSpec.ApplyFlags` is not under src/.
Per the design spec (section 3) the base fields support being overlaid
by process-wide flag values, with flag-present-and-explicit beating
spec-default. -/
def BaseVmSpec.ApplyFlags (s : BaseVmSpec) (f : PkbFlags) : BaseVmSpec :=
  { image := if f.image.present then f.image.value else s.image
    machine_type := if f.machine_type.present then f.machine_type.value else s.machine_type
    zone := if f.zone.present then f.zone.value else s.zone }

/-- `GceVmSpec.__init__` (gce_virtual_machine.py lines 56-70). -/
structure GceVmSpec extends BaseVmSpec where
  project : Option String := none
  num_local_ssds : Int := 0
  preemptible : Bool := false
deriving Repr, DecidableEq

/-- `GceVmSpec.ApplyFlags` (gce_virtual_machine.py lines 72-79): the
super call overlays the base fields; `project` is overlaid with Python
`or` (truthiness), while `num_local_ssds` and `preemptible` are overlaid
exactly when their flags are explicitly present. -/
def GceVmSpec.ApplyFlags (s : GceVmSpec) (f : PkbFlags) : GceVmSpec :=
  { toBaseVmSpec := s.toBaseVmSpec.ApplyFlags f
    project := pyOrOptStr f.project.value s.project
    num_local_ssds :=
      if f.gce_num_local_ssds.present then f.gce_num_local_ssds.value
      else s.num_local_ssds
    preemptible :=
      if f.gce_preemptible_vms.present then f.gce_preemptible_vms.value
      else s.preemptible }

/-! ## benchmark_spec.py: group-level cloud / OS-type resolution -/

/-- The part of a VM group configuration consulted by
`_GetCloudForGroup` / `_GetOsTypeForGroup` (benchmark_spec.py lines
134-160).  A key that is absent from the Python config dict is `none`. -/
structure GroupSpec where
  cloud : Option String := none
  os_type : Option String := none
deriving Repr, DecidableEq

/-- `BenchmarkSpec._GetCloudForGroup` (benchmark_spec.py lines 134-146):
`if not FLAGS[CLOUD].present and CLOUD in group_spec: return
group_spec[CLOUD]; return FLAGS.cloud`. -/
def _GetCloudForGroup (cloudFlag : FlagEnum) (g : GroupSpec) : String :=
  match g.cloud with
  | some c => if !cloudFlag.present then c else cloudFlag.value
  | none => cloudFlag.value

/-- `BenchmarkSpec._GetOsTypeForGroup` (benchmark_spec.py lines
148-160), same shape as `_GetCloudForGroup` over the `os_type` key. -/
def _GetOsTypeForGroup (osTypeFlag : FlagEnum) (g : GroupSpec) : String :=
  match g.os_type with
  | some t => if !osTypeFlag.present then t else osTypeFlag.value
  | none => osTypeFlag.value

/-! ## benchmark_spec.py: teardown (Delete), pickling, resume

The VMs, firewalls and networks held by a `BenchmarkSpec` are external
collaborators (their `Delete` / `DisallowAllPorts` implementations live
in provider plugins that are out of scope); each is embedded as an
identifier together with oracle bits saying which of its lifecycle
calls raise. -/

def isExceptError {ε α : Type} : Except ε α → Bool
  | .error _ => true
  | .ok _ => false

/-- A VM as seen by `BenchmarkSpec.DeleteVm`: its identity, the
`is_static` / `install_packages` attributes the code branches on, and
oracle bits for which of its calls raise. -/
structure VmItem where
  vid : String
  is_static : Bool := false
  install_packages : Bool := true
  packageCleanupRaises : Bool := false
  deleteRaises : Bool := false
  deleteScratchDisksRaises : Bool := false
deriving Repr, DecidableEq

structure FirewallItem where
  fid : String
  disallowAllPortsRaises : Bool := false
deriving Repr, DecidableEq

structure NetworkItem where
  nid : String
  deleteRaises : Bool := false
deriving Repr, DecidableEq

/-- The fields of `BenchmarkSpec` (benchmark_spec.py lines 109-122)
relevant to teardown, pickling and resume.  `_flags` is the lazily
computed merged-flags cache (its contents are opaque to the operations
verified here). -/
structure BenchmarkSpecState where
  name : String
  uid : String
  vms : List VmItem
  firewalls : List FirewallItem
  networks : List NetworkItem
  deleted : Bool
  _flags : Option Nat
deriving Repr, DecidableEq

/-- `BenchmarkSpec.DeleteVm` (benchmark_spec.py lines 302-311):
`if vm.is_static and vm.install_packages: vm.PackageCleanup()`;
`vm.Delete()`; `vm.DeleteScratchDisks()`.  The first raising call
aborts the rest of this single-VM operation. -/
def DeleteVm (vm : VmItem) : Except String Unit := do
  if vm.is_static && vm.install_packages then
    if vm.packageCleanupRaises then
      throw ("PackageCleanup raised on " ++ vm.vid)
  if vm.deleteRaises then
    throw ("Delete raised on " ++ vm.vid)
  if vm.deleteScratchDisksRaises then
    throw ("DeleteScratchDisks raised on " ++ vm.vid)

/-- Modelled from the spec: `vm_util.RunThreaded` is not under src/.
Per the design spec (section 4.4) the driver applies the operation to
every item, collects all failures, and raises one aggregate failure
after every item has been attempted.  Returns the items attempted (all
of them) together with the aggregate outcome. -/
def RunThreaded {α : Type} (op : α → Except String Unit) (items : List α) :
    List α × Except String Unit :=
  let failures := (items.map op).filterMap fun r =>
    match r with
    | .error e => some e
    | .ok _ => none
  (items, if failures.isEmpty then .ok () else
    .error (String.intercalate "; " failures))

def FirewallItem.DisallowAllPorts (fw : FirewallItem) : Except String Unit :=
  if fw.disallowAllPortsRaises then
    .error ("DisallowAllPorts raised on " ++ fw.fid)
  else .ok ()

def NetworkItem.Delete (n : NetworkItem) : Except String Unit :=
  if n.deleteRaises then .error ("Delete raised on " ++ n.nid) else .ok ()

def vmTeardownLogMsg : String :=
  "Got an exception deleting VMs. Attempting to continue tearing down."

def firewallTeardownLogMsg : String :=
  "Got an exception disabling firewalls. Attempting to continue tearing down."

def networkTeardownLogMsg : String :=
  "Got an exception deleting networks. Attempting to continue tearing down."

/-- The firewall loop of `BenchmarkSpec.Delete` (benchmark_spec.py
lines 239-244): each firewall in turn, `DisallowAllPorts` inside a
`try`/`except` that logs and continues.  Returns the firewalls
attempted and the log entries emitted, in order. -/
def firewallTeardownStage : List FirewallItem → List String × List String
  | [] => ([], [])
  | fw :: rest =>
    let r := firewallTeardownStage rest
    match fw.DisallowAllPorts with
    | .ok _ => (fw.fid :: r.1, r.2)
    | .error _ => (fw.fid :: r.1, firewallTeardownLogMsg :: r.2)

/-- The network loop of `BenchmarkSpec.Delete` (benchmark_spec.py lines
246-251): each network in turn, `Delete` inside a `try`/`except` that
logs and continues. -/
def networkTeardownStage : List NetworkItem → List String × List String
  | [] => ([], [])
  | n :: rest =>
    let r := networkTeardownStage rest
    match n.Delete with
    | .ok _ => (n.nid :: r.1, r.2)
    | .error _ => (n.nid :: r.1, networkTeardownLogMsg :: r.2)

/-- `FLAGS.run_stage not in ['all', 'cleanup']`, negated
(benchmark_spec.py line 229). -/
def runStagePermitsTeardown (run_stage : String) : Bool :=
  run_stage == "all" || run_stage == "cleanup"

/-- The observable outcome of one `BenchmarkSpec.Delete` call: the spec
state afterwards, the identities of the VMs / firewalls / networks on
which a teardown call was attempted, and the log entries emitted. -/
structure DeleteResult where
  spec : BenchmarkSpecState
  vmAttempted : List String
  fwAttempted : List String
  netAttempted : List String
  log : List String
deriving Repr, DecidableEq

/-- `BenchmarkSpec.Delete` (benchmark_spec.py lines 228-252).  Returns
immediately when the run stage does not permit teardown or the spec was
already deleted; otherwise runs the parallel VM deletion inside a
`try`/`except`, then the firewall loop, then the network loop, and
finally sets `deleted` to true. -/
def BenchmarkSpecState.Delete (s : BenchmarkSpecState) (run_stage : String) :
    DeleteResult :=
  if !runStagePermitsTeardown run_stage || s.deleted then
    ⟨s, [], [], [], []⟩
  else
    let vmStage :=
      if s.vms.isEmpty then (([] : List String), ([] : List String))
      else
        let r := RunThreaded DeleteVm s.vms
        (r.1.map VmItem.vid,
         if isExceptError r.2 then [vmTeardownLogMsg] else [])
    let fwStage := firewallTeardownStage s.firewalls
    let netStage := networkTeardownStage s.networks
    ⟨{ s with deleted := true }, vmStage.1, fwStage.1, netStage.1,
     vmStage.2 ++ fwStage.2 ++ netStage.2⟩

/-- `BenchmarkSpec.PickleSpec` (benchmark_spec.py lines 313-319): the
merged-flags cache is detached, the spec is serialized (the first
component is the serialized image), and the cache is reattached (the
second component is the in-memory spec after the call). -/
def BenchmarkSpecState.PickleSpec (s : BenchmarkSpecState) :
    BenchmarkSpecState × BenchmarkSpecState :=
  let fl := s._flags
  let detached := { s with _flags := none }
  (detached, { detached with _flags := fl })

/-- `BenchmarkSpec.GetSpecFromFile` (benchmark_spec.py lines 321-342):
the deserialized graph is returned with `deleted` reset to false so
that cleanup can always be re-attempted. -/
def GetSpecFromFile (serialized : BenchmarkSpecState) : BenchmarkSpecState :=
  { serialized with deleted := false }

/-! ## gce_virtual_machine.py: scratch disk allocation -/

/-- A `gce_disk.GceDisk` as far as disk-number allocation is concerned.
gce_disk.py is not under src/; per `disk.BaseDisk.__init__` (disk.py
lines 152-171, which is under src/) a disk copies `disk_type` and
`disk_number` from its spec; `CreateScratchDisk` then overwrites
`disk_number`.  Only the fields the claims are about are kept. -/
structure GceDisk where
  name : String := ""
  disk_type : Option String := none
  disk_number : Nat := 0
deriving Repr, DecidableEq, Inhabited

/-- A scratch disk held by a VM: a single disk, or a striped aggregate
of member disks (`disk.StripedDisk`, disk.py lines 192-222). -/
inductive ScratchDiskEntry where
  | single (d : GceDisk)
  | striped (members : List GceDisk)
deriving Repr, DecidableEq

/-- The fields of `GceVirtualMachine` used by `CreateScratchDisk`
(gce_virtual_machine.py lines 198-225).  `max_local_disks` is set from
`vm_spec.num_local_ssds` at construction (line 106); the two counters
start at 0 (they are initialized by the base VM class). -/
structure GceVm where
  name : String
  max_local_disks : Nat
  local_disk_counter : Nat := 0
  remote_disk_counter : Nat := 0
  scratch_disks : List ScratchDiskEntry := []
deriving Repr, DecidableEq

/-- Modelled from the spec:
`virtual_machine.BaseVirtualMachine._CreateScratchDiskFromDisks` is not
under src/.  Per the design spec (section 4.2) the member disks created
from one disk spec are wrapped in a striped aggregate when there is
more than one of them, and the resulting scratch disk is created,
attached and appended to the VM's scratch disks. -/
def _CreateScratchDiskFromDisks (vm : GceVm) (disks : List GceDisk) : GceVm :=
  let entry :=
    if disks.length > 1 then ScratchDiskEntry.striped disks
    else ScratchDiskEntry.single (disks.headD default)
  { vm with scratch_disks := vm.scratch_disks ++ [entry] }

/-- The `for i in xrange(disk_spec.num_striped_disks)` loop of
`GceVirtualMachine.CreateScratchDisk` (gce_virtual_machine.py lines
206-223).  Arguments after the fixed data: remaining iteration count,
the loop index `i`, the VM's `local_disk_counter` and
`remote_disk_counter`, and the `disks` list accumulated so far.  On the
`raise errors.Error` path the error carries the counter values at the
moment of the raise (Python mutations survive the exception); the disk
built in the raising iteration has not been appended. -/
def scratchDiskLoop (ds : BaseDiskSpec) (vmName : String)
    (numExistingScratch maxLocal : Nat) :
    Nat → Nat → Nat → Nat → List GceDisk →
    Except (String × Nat × Nat) (Nat × Nat × List GceDisk)
  | 0, _, lc, rc, acc => .ok (lc, rc, acc)
  | n + 1, i, lc, rc, acc =>
    if ds.disk_type == some LOCAL then
      let d : GceDisk :=
        { name := "local-ssd-" ++ toString lc
          disk_type := ds.disk_type
          disk_number := lc + 1 }
      let lc2 := lc + 1
      if lc2 > maxLocal then
        .error ("Not enough local disks.", lc2, rc)
      else
        scratchDiskLoop ds vmName numExistingScratch maxLocal n (i + 1)
          lc2 rc (acc ++ [d])
    else
      let d : GceDisk :=
        { name := vmName ++ "-data-" ++ toString numExistingScratch ++ "-"
            ++ toString i
          disk_type := ds.disk_type
          disk_number := rc + 1 + maxLocal }
      scratchDiskLoop ds vmName numExistingScratch maxLocal n (i + 1)
        lc (rc + 1) (acc ++ [d])

/-- `GceVirtualMachine.CreateScratchDisk` (gce_virtual_machine.py lines
198-225).  On success the counters are written back and
`_CreateScratchDiskFromDisks` appends the new scratch disk; on the
allocation error the counters mutated so far are written back, the
local `disks` list is discarded, and `_CreateScratchDiskFromDisks` is
never invoked. -/
def GceVm.CreateScratchDisk (vm : GceVm) (ds : BaseDiskSpec) :
    Except (String × GceVm) GceVm :=
  match scratchDiskLoop ds vm.name vm.scratch_disks.length
      vm.max_local_disks ds.num_striped_disks.toNat 0
      vm.local_disk_counter vm.remote_disk_counter [] with
  | .error (msg, lc, rc) =>
    .error (msg,
      { vm with local_disk_counter := lc, remote_disk_counter := rc })
  | .ok (lc, rc, disks) =>
    .ok (_CreateScratchDiskFromDisks
      { vm with local_disk_counter := lc, remote_disk_counter := rc } disks)

/-- The `for disk_spec in vm.disk_specs: vm.CreateScratchDisk(disk_spec)`
loop of `BenchmarkSpec.PrepareVm` (benchmark_spec.py lines 295-296). -/
def GceVm.CreateScratchDisks (vm : GceVm) :
    List BaseDiskSpec → Except (String × GceVm) GceVm
  | [] => .ok vm
  | ds :: rest =>
    match vm.CreateScratchDisk ds with
    | .error e => .error e
    | .ok vm2 => vm2.CreateScratchDisks rest

def ScratchDiskEntry.memberDisks : ScratchDiskEntry → List GceDisk
  | .single d => [d]
  | .striped ms => ms

/-- All member disks of all scratch disks of a VM, in creation order. -/
def GceVm.allScratchMemberDisks (vm : GceVm) : List GceDisk :=
  (vm.scratch_disks.map ScratchDiskEntry.memberDisks).flatten

/-- The disk numbers of the VM's local-typed scratch member disks. -/
def GceVm.localDiskNumbers (vm : GceVm) : List Nat :=
  ((vm.allScratchMemberDisks.filter fun d => d.disk_type == some LOCAL).map
    GceDisk.disk_number)

/-- The disk numbers of the VM's remote (non-local-typed) scratch member
disks. -/
def GceVm.remoteDiskNumbers (vm : GceVm) : List Nat :=
  ((vm.allScratchMemberDisks.filter fun d => !(d.disk_type == some LOCAL)).map
    GceDisk.disk_number)

/-! ## benchmark_spec.py: ConstructVirtualMachines

Spec construction from a configuration parameter bag: Python passes the
per-cloud parameter bag as `**kwargs` to the spec class.  A keyword not
named by any parameter of the constructor chain raises a `TypeError`,
which `ConstructVirtualMachines` (lines 197-201) converts into a
`ValueError` built from the `TypeError` message alone.  Only the KEYS of
the bag decide acceptance, so a bag is embedded as its key list. -/

/-- Modelled from the spec: the `BaseVmSpec` constructor is not under
src/; per the design spec (section 3) its keyword parameters are the
machine-type / image / zone-like base fields. -/
def baseVmSpecKeys : List String := ["image", "machine_type", "zone"]

/-- Keyword parameters of `GceVmSpec.__init__` (gce_virtual_machine.py
lines 56-67): its own three, plus `**kwargs` forwarded to the base. -/
def gceVmSpecKeys : List String :=
  ["project", "num_local_ssds", "preemptible"] ++ baseVmSpecKeys

/-- Keyword parameters of `BaseDiskSpec.__init__` (disk.py lines
119-121). -/
def baseDiskSpecKeys : List String :=
  ["disk_size", "disk_type", "mount_point", "num_striped_disks",
   "disk_number", "device_path"]

/-- The first key of the bag not accepted by the constructor. -/
def firstUnknownKey (known bag : List String) : Option String :=
  bag.find? fun k => !(known.contains k)

/-- The `TypeError` message Python produces for an unexpected keyword
argument. -/
def typeErrorMessage (k : String) : String :=
  "__init__() got an unexpected keyword argument " ++ k

/-- Calling a spec constructor on a parameter bag: raises the
`TypeError` for the first unknown keyword, accepts otherwise. -/
def constructSpecFromBag (known bag : List String) : Except String Unit :=
  match firstUnknownKey known bag with
  | some k => .error (typeErrorMessage k)
  | none => .ok ()

def configUnexpectedParameterMsg (typeErrMsg : String) : String :=
  "Config contained an unexpected parameter. Error message:\n" ++ typeErrMsg

/-- The `except TypeError` wrapper of `ConstructVirtualMachines`
(benchmark_spec.py lines 197-201): any `TypeError` from spec
construction is re-raised as
`ValueError('Config contained an unexpected parameter. %s' % e)`. -/
def specConstructionStep (known bag : List String) : Except String Unit :=
  match constructSpecFromBag known bag with
  | .error e => .error (configUnexpectedParameterMsg e)
  | .ok u => .ok u

/-- The spec construction performed by `ConstructVirtualMachines` for a
benchmark with the given name.  The benchmark name is in scope
(`self.name`) but the raise on line 200 does not use it: the error is
built from the `TypeError` message alone. -/
def constructVmSpecForBenchmark (_benchmarkName : String)
    (bag : List String) : Except String Unit :=
  specConstructionStep gceVmSpecKeys bag

/-- The per-VM disk-spec copies made by `ConstructVirtualMachines`
(benchmark_spec.py lines 208-213): `disk_count` shallow copies of the
group's disk spec; when more than one disk is requested and the spec
has a truthy mount point, the i-th copy gets `str(i)` appended to its
mount point. -/
def makeVmDiskSpecs (disk_spec : BaseDiskSpec) (disk_count : Nat) :
    List BaseDiskSpec :=
  let specs := List.replicate disk_count disk_spec
  if 1 < disk_count ∧ pyTruthyOptStr disk_spec.mount_point = true then
    specs.enum.map fun p =>
      { p.2 with mount_point := p.2.mount_point.map fun m => m ++ toString p.1 }
  else specs

/-- A static VM descriptor (an entry of the group's `static_vms`
list); its contents are opaque to the construction logic verified
here. -/
structure StaticVmDescr where
  descr : String
deriving Repr, DecidableEq

/-- A VM produced by `ConstructVirtualMachines`: either a static VM
instantiated from a descriptor (lines 175-180), or a dynamic VM
synthesized from the shared specs, carrying its per-VM disk spec copies
(lines 204-214). -/
inductive ConstructedVm where
  | staticVm (d : StaticVmDescr)
  | dynamicVm (disk_specs : List BaseDiskSpec)
deriving Repr, DecidableEq

/-- `vm_count = group_spec.get(VM_COUNT, DEFAULT_COUNT); if vm_count is
None: vm_count = FLAGS.num_vms` (benchmark_spec.py lines 168-170).
`none` = key absent, `some none` = key present with value `None`. -/
def resolveVmCount (vm_count_entry : Option (Option Nat))
    (num_vms_flag : Nat) : Nat :=
  match vm_count_entry with
  | none => 1
  | some none => num_vms_flag
  | some (some n) => n

/-- `disk_count = group_spec.get(DISK_COUNT, DEFAULT_COUNT)`
(benchmark_spec.py line 171). -/
def resolveDiskCount (disk_count_entry : Option Nat) : Nat :=
  match disk_count_entry with
  | none => 1
  | some n => n

/-- The per-group VM list built by `ConstructVirtualMachines`
(benchmark_spec.py lines 166-216): first the static VMs, from the first
`vm_count` descriptors only (line 176 slices with `[:vm_count]`), then
`vm_count - len(vms)` dynamic VMs from the shared specs, each given its
own disk spec copies when the group has a disk spec.  The contents of
the VM spec (applied flags, cloud, OS type) do not affect the VM count,
ordering or disk specs and are not carried by `ConstructedVm`. -/
def staticGroupVms (vm_count : Nat) :
    Option (List StaticVmDescr) → List ConstructedVm
  | some l => (l.take vm_count).map ConstructedVm.staticVm
  | none => []

def constructGroupVms (vm_count disk_count : Nat)
    (static_vms : Option (List StaticVmDescr))
    (disk_spec : Option BaseDiskSpec) : List ConstructedVm :=
  staticGroupVms vm_count static_vms
    ++ (List.range
          (vm_count - (staticGroupVms vm_count static_vms).length)).map
        fun _ =>
          ConstructedVm.dynamicVm
            (match disk_spec with
             | some ds => makeVmDiskSpecs ds disk_count
             | none => [])

/-! ## Supporting lemmas -/

theorem firewallTeardownStage_fst (fws : List FirewallItem) :
    (firewallTeardownStage fws).1 = fws.map FirewallItem.fid := by
  induction fws with
  | nil => rfl
  | cons fw rest ih =>
    unfold firewallTeardownStage
    cases h : fw.DisallowAllPorts <;> simp [h, ih]

theorem firewallTeardownStage_snd (fws : List FirewallItem) :
    (firewallTeardownStage fws).2 =
      List.replicate
        (fws.countP fun fw => isExceptError fw.DisallowAllPorts)
        firewallTeardownLogMsg := by
  induction fws with
  | nil => rfl
  | cons fw rest ih =>
    unfold firewallTeardownStage
    cases h : fw.DisallowAllPorts <;>
      simp [h, ih, List.countP_cons, isExceptError, List.replicate_succ]

theorem networkTeardownStage_fst (ns : List NetworkItem) :
    (networkTeardownStage ns).1 = ns.map NetworkItem.nid := by
  induction ns with
  | nil => rfl
  | cons n rest ih =>
    unfold networkTeardownStage
    cases h : n.Delete <;> simp [h, ih]

theorem networkTeardownStage_snd (ns : List NetworkItem) :
    (networkTeardownStage ns).2 =
      List.replicate (ns.countP fun n => isExceptError n.Delete)
        networkTeardownLogMsg := by
  induction ns with
  | nil => rfl
  | cons n rest ih =>
    unfold networkTeardownStage
    cases h : n.Delete <;>
      simp [h, ih, List.countP_cons, isExceptError, List.replicate_succ]

theorem runThreaded_fst {α : Type} (op : α → Except String Unit)
    (items : List α) : (RunThreaded op items).1 = items := rfl

theorem runThreaded_error_iff_any {α : Type} (op : α → Except String Unit)
    (items : List α) :
    isExceptError (RunThreaded op items).2 =
      items.any fun a => isExceptError (op a) := by
  have hfail : ∀ l : List α,
      ((l.filterMap fun a =>
         match op a with
         | .error e => some e
         | .ok _ => none).isEmpty) =
        !(l.any fun a => isExceptError (op a)) := by
    intro l
    induction l with
    | nil => rfl
    | cons a rest ih =>
      cases h : op a <;>
        simp [List.filterMap_cons, h, isExceptError, ih]
  unfold RunThreaded
  have hco : ((items.map op).filterMap fun r =>
      match r with
      | .error e => some e
      | .ok _ => none) =
      (items.filterMap fun a =>
        match op a with
        | .error e => some e
        | .ok _ => none) := by
    rw [List.filterMap_map]
    rfl
  simp only [hco]
  have hf := hfail items
  cases he : ((items.filterMap fun a =>
      match op a with
      | .error e => some e
      | .ok _ => none).isEmpty)
  case false =>
    rw [he] at hf
    have hany : (items.any fun a => isExceptError (op a)) = true := by
      cases hb : items.any fun a => isExceptError (op a)
      · rw [hb] at hf
        exact absurd hf (by decide)
      · rfl
    rw [hany]
    simp only [he, Bool.false_eq_true, if_false]
    rfl
  case true =>
    rw [he] at hf
    have hany : (items.any fun a => isExceptError (op a)) = false := by
      cases hb : items.any fun a => isExceptError (op a)
      · rfl
      · rw [hb] at hf
        exact absurd hf (by decide)
    rw [hany]
    simp only [he, if_true]
    rfl

/-! ## Supporting lemmas: scratch disk allocation -/

theorem memberDisks_of_built_entry (disks : List GceDisk) (h : disks ≠ []) :
    (if disks.length > 1 then ScratchDiskEntry.striped disks
     else ScratchDiskEntry.single (disks.headD default)).memberDisks = disks := by
  match disks with
  | [] => exact absurd rfl h
  | [d] => rfl
  | d :: e :: rest =>
    rw [if_pos (by simp only [List.length_cons]; omega)]
    rfl

theorem allScratch_CreateFromDisks (vm : GceVm) (disks : List GceDisk)
    (h : disks ≠ []) :
    (_CreateScratchDiskFromDisks vm disks).allScratchMemberDisks
      = vm.allScratchMemberDisks ++ disks := by
  unfold _CreateScratchDiskFromDisks GceVm.allScratchMemberDisks
  rw [List.map_append, List.flatten_append]
  simp only [List.map_cons, List.map_nil, List.flatten_cons,
    List.flatten_nil, List.append_nil]
  rw [memberDisks_of_built_entry disks h]

theorem scratchDiskLoop_local (ds : BaseDiskSpec) (vmName : String)
    (numEx maxLocal : Nat) (hl : ds.disk_type = some LOCAL) :
    ∀ n i lc rc acc, lc + n ≤ maxLocal →
      ∃ newdisks : List GceDisk,
        scratchDiskLoop ds vmName numEx maxLocal n i lc rc acc
          = .ok (lc + n, rc, acc ++ newdisks)
        ∧ newdisks.map GceDisk.disk_number = List.range' (lc + 1) n
        ∧ newdisks.length = n
        ∧ ∀ d ∈ newdisks, d.disk_type = some LOCAL := by
  have hcond : (ds.disk_type == some LOCAL) = true := by
    rw [hl]
    exact beq_self_eq_true (some LOCAL)
  intro n
  induction n with
  | zero =>
    intro i lc rc acc _
    exact ⟨[], by simp [scratchDiskLoop], by simp, by simp, by simp⟩
  | succ n ih =>
    intro i lc rc acc hfit
    obtain ⟨nds, heq, hnum, hlen, hty⟩ := ih (i + 1) (lc + 1) rc
      (acc ++ [⟨"local-ssd-" ++ toString lc, ds.disk_type, lc + 1⟩])
      (by omega)
    refine ⟨⟨"local-ssd-" ++ toString lc, ds.disk_type, lc + 1⟩ :: nds,
      ?_, ?_, ?_, ?_⟩
    · simp only [scratchDiskLoop]
      rw [if_pos hcond, if_neg (show ¬(lc + 1 > maxLocal) from by omega)]
      rw [heq, List.append_assoc, List.singleton_append,
        show lc + (n + 1) = lc + 1 + n from by omega]
    · rw [List.map_cons, hnum, List.range'_succ]
    · simp [hlen]
    · intro d hd
      rcases List.mem_cons.mp hd with h1 | h2
      · rw [h1, hl]
      · exact hty d h2

theorem scratchDiskLoop_local_overflow (ds : BaseDiskSpec) (vmName : String)
    (numEx maxLocal : Nat) (hl : ds.disk_type = some LOCAL) :
    ∀ n i lc rc acc, lc ≤ maxLocal → maxLocal < lc + n →
      scratchDiskLoop ds vmName numEx maxLocal n i lc rc acc
        = .error ("Not enough local disks.", maxLocal + 1, rc) := by
  have hcond : (ds.disk_type == some LOCAL) = true := by
    rw [hl]
    exact beq_self_eq_true (some LOCAL)
  intro n
  induction n with
  | zero =>
    intro i lc rc acc hle hover
    omega
  | succ n ih =>
    intro i lc rc acc hle hover
    by_cases hov : lc + 1 > maxLocal
    · simp only [scratchDiskLoop]
      rw [if_pos hcond, if_pos hov,
        show lc = maxLocal from by omega]
    · simp only [scratchDiskLoop]
      rw [if_pos hcond, if_neg hov]
      exact ih (i + 1) (lc + 1) rc _ (by omega) (by omega)

theorem scratchDiskLoop_remote (ds : BaseDiskSpec) (vmName : String)
    (numEx maxLocal : Nat) (hl : (ds.disk_type == some LOCAL) = false) :
    ∀ n i lc rc acc,
      ∃ newdisks : List GceDisk,
        scratchDiskLoop ds vmName numEx maxLocal n i lc rc acc
          = .ok (lc, rc + n, acc ++ newdisks)
        ∧ newdisks.map GceDisk.disk_number
            = List.range' (rc + 1 + maxLocal) n
        ∧ newdisks.length = n
        ∧ ∀ d ∈ newdisks, d.disk_type = ds.disk_type := by
  intro n
  induction n with
  | zero =>
    intro i lc rc acc
    exact ⟨[], by simp [scratchDiskLoop], by simp, by simp, by simp⟩
  | succ n ih =>
    intro i lc rc acc
    obtain ⟨nds, heq, hnum, hlen, hty⟩ := ih (i + 1) lc (rc + 1)
      (acc ++ [⟨vmName ++ "-data-" ++ toString numEx ++ "-" ++ toString i,
        ds.disk_type, rc + 1 + maxLocal⟩])
    refine ⟨⟨vmName ++ "-data-" ++ toString numEx ++ "-" ++ toString i,
      ds.disk_type, rc + 1 + maxLocal⟩ :: nds, ?_, ?_, ?_, ?_⟩
    · simp only [scratchDiskLoop]
      rw [if_neg (show ¬((ds.disk_type == some LOCAL) = true) from by
        rw [hl]
        exact Bool.false_ne_true)]
      rw [heq, List.append_assoc, List.singleton_append,
        show rc + (n + 1) = rc + 1 + n from by omega]
    · rw [List.map_cons, hnum, List.range'_succ]
      congr 2
      omega
    · simp [hlen]
    · intro d hd
      rcases List.mem_cons.mp hd with h1 | h2
      · rw [h1]
      · exact hty d h2

/-- The per-VM disk-number invariant of the design spec (section 3):
the local scratch disk numbers are exactly `1, ..., local_disk_counter`
(all of them at most `max_local_disks`) and the remote scratch disk
numbers are exactly `max_local_disks + 1, ...,
max_local_disks + remote_disk_counter`. -/
def GceVm.DiskNumberInvariant (vm : GceVm) : Prop :=
  vm.localDiskNumbers = List.range' 1 vm.local_disk_counter
  ∧ vm.remoteDiskNumbers
      = List.range' (vm.max_local_disks + 1) vm.remote_disk_counter
  ∧ vm.local_disk_counter ≤ vm.max_local_disks

theorem createScratchDisk_local_ok (vm : GceVm) (ds : BaseDiskSpec)
    (hl : ds.disk_type = some LOCAL)
    (hns : 1 ≤ ds.num_striped_disks.toNat)
    (hfit : vm.local_disk_counter + ds.num_striped_disks.toNat
      ≤ vm.max_local_disks) :
    ∃ vm2, vm.CreateScratchDisk ds = .ok vm2
      ∧ vm2.name = vm.name
      ∧ vm2.max_local_disks = vm.max_local_disks
      ∧ vm2.local_disk_counter
          = vm.local_disk_counter + ds.num_striped_disks.toNat
      ∧ vm2.remote_disk_counter = vm.remote_disk_counter
      ∧ vm2.localDiskNumbers = vm.localDiskNumbers
          ++ List.range' (vm.local_disk_counter + 1) ds.num_striped_disks.toNat
      ∧ vm2.remoteDiskNumbers = vm.remoteDiskNumbers := by
  obtain ⟨nds, heq, hnum, hlen, hty⟩ := scratchDiskLoop_local ds vm.name
    vm.scratch_disks.length vm.max_local_disks hl
    ds.num_striped_disks.toNat 0 vm.local_disk_counter
    vm.remote_disk_counter [] hfit
  have hne : nds ≠ [] := by
    have hpos : 0 < nds.length := by
      rw [hlen]
      omega
    exact List.ne_nil_of_length_pos hpos
  have hres : vm.CreateScratchDisk ds = .ok
      (_CreateScratchDiskFromDisks
        { vm with
          local_disk_counter :=
            vm.local_disk_counter + ds.num_striped_disks.toNat
          remote_disk_counter := vm.remote_disk_counter }
        nds) := by
    unfold GceVm.CreateScratchDisk
    rw [heq]
    rfl
  have hbase : GceVm.allScratchMemberDisks
      { vm with
        local_disk_counter :=
          vm.local_disk_counter + ds.num_striped_disks.toNat
        remote_disk_counter := vm.remote_disk_counter }
      = vm.allScratchMemberDisks := rfl
  refine ⟨_, hres, rfl, rfl, rfl, rfl, ?_, ?_⟩
  · unfold GceVm.localDiskNumbers
    rw [allScratch_CreateFromDisks _ nds hne, hbase]
    rw [List.filter_append, List.map_append]
    rw [show nds.filter (fun d => d.disk_type == some LOCAL) = nds from
      List.filter_eq_self.mpr (by
        intro d hd
        rw [hty d hd]
        exact beq_self_eq_true (some LOCAL))]
    rw [hnum]
  · unfold GceVm.remoteDiskNumbers
    rw [allScratch_CreateFromDisks _ nds hne, hbase]
    rw [List.filter_append, List.map_append]
    rw [show nds.filter (fun d => !(d.disk_type == some LOCAL)) = [] from
      List.filter_eq_nil_iff.mpr (by
        intro d hd
        rw [hty d hd]
        simp)]
    simp

theorem createScratchDisk_remote_ok (vm : GceVm) (ds : BaseDiskSpec)
    (hl : (ds.disk_type == some LOCAL) = false)
    (hns : 1 ≤ ds.num_striped_disks.toNat) :
    ∃ vm2, vm.CreateScratchDisk ds = .ok vm2
      ∧ vm2.name = vm.name
      ∧ vm2.max_local_disks = vm.max_local_disks
      ∧ vm2.local_disk_counter = vm.local_disk_counter
      ∧ vm2.remote_disk_counter
          = vm.remote_disk_counter + ds.num_striped_disks.toNat
      ∧ vm2.localDiskNumbers = vm.localDiskNumbers
      ∧ vm2.remoteDiskNumbers = vm.remoteDiskNumbers
          ++ List.range' (vm.remote_disk_counter + 1 + vm.max_local_disks)
              ds.num_striped_disks.toNat := by
  obtain ⟨nds, heq, hnum, hlen, hty⟩ := scratchDiskLoop_remote ds vm.name
    vm.scratch_disks.length vm.max_local_disks hl
    ds.num_striped_disks.toNat 0 vm.local_disk_counter
    vm.remote_disk_counter []
  have hne : nds ≠ [] := by
    have hpos : 0 < nds.length := by
      rw [hlen]
      omega
    exact List.ne_nil_of_length_pos hpos
  have hres : vm.CreateScratchDisk ds = .ok
      (_CreateScratchDiskFromDisks
        { vm with
          local_disk_counter := vm.local_disk_counter
          remote_disk_counter :=
            vm.remote_disk_counter + ds.num_striped_disks.toNat }
        nds) := by
    unfold GceVm.CreateScratchDisk
    rw [heq]
    rfl
  have hbase : GceVm.allScratchMemberDisks
      { vm with
        local_disk_counter := vm.local_disk_counter
        remote_disk_counter :=
          vm.remote_disk_counter + ds.num_striped_disks.toNat }
      = vm.allScratchMemberDisks := rfl
  refine ⟨_, hres, rfl, rfl, rfl, rfl, ?_, ?_⟩
  · unfold GceVm.localDiskNumbers
    rw [allScratch_CreateFromDisks _ nds hne, hbase]
    rw [List.filter_append, List.map_append]
    rw [show nds.filter (fun d => d.disk_type == some LOCAL) = [] from
      List.filter_eq_nil_iff.mpr (by
        intro d hd
        rw [hty d hd]
        intro hcon
        rw [hcon] at hl
        exact absurd hl (by decide))]
    simp
  · unfold GceVm.remoteDiskNumbers
    rw [allScratch_CreateFromDisks _ nds hne, hbase]
    rw [List.filter_append, List.map_append]
    rw [show nds.filter (fun d => !(d.disk_type == some LOCAL)) = nds from
      List.filter_eq_self.mpr (by
        intro d hd
        rw [hty d hd]
        rw [Bool.not_eq_true']
        exact hl)]
    rw [hnum]

theorem createScratchDisk_step_invariant (vm vm2 : GceVm)
    (ds : BaseDiskSpec)
    (hns : 1 ≤ ds.num_striped_disks.toNat)
    (hinv : vm.DiskNumberInvariant)
    (hok : vm.CreateScratchDisk ds = .ok vm2) :
    vm2.DiskNumberInvariant ∧ vm2.max_local_disks = vm.max_local_disks := by
  obtain ⟨hlocal, hremote, hbound⟩ := hinv
  cases hl : ds.disk_type == some LOCAL
  · obtain ⟨vm3, heq, _, hmax, hlc, hrc, hln, hrn⟩ :=
      createScratchDisk_remote_ok vm ds hl hns
    rw [heq] at hok
    injection hok with hok
    subst hok
    refine ⟨⟨?_, ?_, ?_⟩, hmax⟩
    · rw [hln, hlocal, hlc]
    · rw [hrn, hremote, hrc, hmax]
      rw [show vm.remote_disk_counter + 1 + vm.max_local_disks
          = (vm.max_local_disks + 1) + vm.remote_disk_counter from by omega]
      rw [List.range'_append_1]
      congr 1
      omega
    · rw [hlc, hmax]
      exact hbound
  · have hl2 : ds.disk_type = some LOCAL := eq_of_beq hl
    by_cases hfit : vm.local_disk_counter + ds.num_striped_disks.toNat
        ≤ vm.max_local_disks
    · obtain ⟨vm3, heq, _, hmax, hlc, hrc, hln, hrn⟩ :=
        createScratchDisk_local_ok vm ds hl2 hns hfit
      rw [heq] at hok
      injection hok with hok
      subst hok
      refine ⟨⟨?_, ?_, ?_⟩, hmax⟩
      · rw [hln, hlocal, hlc]
        rw [show vm.local_disk_counter + 1 = 1 + vm.local_disk_counter
          from by omega]
        rw [List.range'_append_1]
        congr 1
        omega
      · rw [hrn, hremote, hrc, hmax]
      · rw [hlc, hmax]
        exact hfit
    · exfalso
      have herr := scratchDiskLoop_local_overflow ds vm.name
        vm.scratch_disks.length vm.max_local_disks hl2
        ds.num_striped_disks.toNat 0 vm.local_disk_counter
        vm.remote_disk_counter [] hbound (by omega)
      unfold GceVm.CreateScratchDisk at hok
      rw [herr] at hok
      exact Except.noConfusion hok

theorem createScratchDisks_invariant :
    ∀ (specs : List BaseDiskSpec) (vm vm2 : GceVm),
      (∀ ds ∈ specs, 1 ≤ ds.num_striped_disks.toNat) →
      vm.DiskNumberInvariant →
      vm.CreateScratchDisks specs = .ok vm2 →
      vm2.DiskNumberInvariant ∧ vm2.max_local_disks = vm.max_local_disks := by
  intro specs
  induction specs with
  | nil =>
    intro vm vm2 _ hinv hok
    unfold GceVm.CreateScratchDisks at hok
    injection hok with hok
    subst hok
    exact ⟨hinv, rfl⟩
  | cons ds rest ih =>
    intro vm vm2 hall hinv hok
    unfold GceVm.CreateScratchDisks at hok
    cases hc : vm.CreateScratchDisk ds with
    | error e =>
      rw [hc] at hok
      exact Except.noConfusion hok
    | ok vmMid =>
      rw [hc] at hok
      have hstep := createScratchDisk_step_invariant vm vmMid ds
        (hall ds (List.mem_cons_self ds rest)) hinv hc
      have hrest := ih vmMid vm2
        (fun d hd => hall d (List.mem_cons_of_mem ds hd)) hstep.1 hok
      exact ⟨hrest.1, hrest.2.trans hstep.2⟩


/-! ## Theorems -/

/-- C9: `PickleSpec` detaches the merged-flags cache before serializing
the spec, so the serialized graph (first component) never contains it,
and reattaches the same cache after writing: after a successful call
every field of the spec, including `_flags`, is unchanged (second
component equals the original spec). -/
theorem C9_pickle_detaches_flags_and_restores_spec (s : BenchmarkSpecState) :
    (s.PickleSpec).1 = { s with _flags := none } ∧ (s.PickleSpec).2 = s :=
  ⟨rfl, rfl⟩

/-- C3: for every VM group configuration, `_GetCloudForGroup` (and,
independently, `_GetOsTypeForGroup`) returns the process-wide flag
value whenever that flag was explicitly supplied, regardless of the
group's configured value; when the flag was not explicitly supplied it
returns the group's configured cloud / OS type if present, and
otherwise the flag's default value.  The hypotheses are the gflags
invariant that an unsupplied flag still holds its default value. -/
theorem C3_cloud_os_resolution_precedence (cloudFlag osTypeFlag : FlagEnum)
    (g : GroupSpec)
    (hc : cloudFlag.present = false → cloudFlag.value = cloudFlag.defaultValue)
    (ho : osTypeFlag.present = false → osTypeFlag.value = osTypeFlag.defaultValue) :
    (cloudFlag.present = true → _GetCloudForGroup cloudFlag g = cloudFlag.value)
    ∧ (cloudFlag.present = false → _GetCloudForGroup cloudFlag g =
        (match g.cloud with
         | some c => c
         | none => cloudFlag.defaultValue))
    ∧ (osTypeFlag.present = true →
        _GetOsTypeForGroup osTypeFlag g = osTypeFlag.value)
    ∧ (osTypeFlag.present = false → _GetOsTypeForGroup osTypeFlag g =
        (match g.os_type with
         | some t => t
         | none => osTypeFlag.defaultValue)) := by
  refine ⟨?_, ?_, ?_, ?_⟩ <;> intro h
  · unfold _GetCloudForGroup
    cases g.cloud <;> simp [h]
  · unfold _GetCloudForGroup
    cases g.cloud <;> simp [h, hc h]
  · unfold _GetOsTypeForGroup
    cases g.os_type <;> simp [h]
  · unfold _GetOsTypeForGroup
    cases g.os_type <;> simp [h, ho h]

/-- C1: when the run stage permits teardown and the spec is not yet
deleted, `Delete` attempts the deletion of every VM (exceptions from
the parallel VM deletion are caught), then `DisallowAllPorts` on every
firewall one at a time, then `Delete` on every network one at a time —
each raising call producing a log entry and never stopping the
remaining stages or items — and the `deleted` flag ends up true
regardless of how many items failed (the failure oracle bits inside `s`
are arbitrary). -/
theorem C1_teardown_swallows_errors_and_attempts_everything
    (run_stage : String) (s : BenchmarkSpecState)
    (hperm : runStagePermitsTeardown run_stage = true)
    (hnd : s.deleted = false) :
    (s.Delete run_stage).vmAttempted = s.vms.map VmItem.vid
    ∧ (s.Delete run_stage).fwAttempted = s.firewalls.map FirewallItem.fid
    ∧ (s.Delete run_stage).netAttempted = s.networks.map NetworkItem.nid
    ∧ (s.Delete run_stage).spec = { s with deleted := true }
    ∧ (s.Delete run_stage).spec.deleted = true
    ∧ (s.Delete run_stage).log =
        (if s.vms.any (fun v => isExceptError (DeleteVm v))
         then [vmTeardownLogMsg] else [])
        ++ List.replicate
            (s.firewalls.countP fun fw => isExceptError fw.DisallowAllPorts)
            firewallTeardownLogMsg
        ++ List.replicate
            (s.networks.countP fun n => isExceptError n.Delete)
            networkTeardownLogMsg := by
  have hguard : (!runStagePermitsTeardown run_stage || s.deleted) = false := by
    rw [hperm, hnd]
    rfl
  unfold BenchmarkSpecState.Delete
  rw [hguard]
  simp only [Bool.false_eq_true, if_false]
  refine ⟨?_, firewallTeardownStage_fst s.firewalls,
    networkTeardownStage_fst s.networks, trivial, trivial, ?_⟩
  · by_cases hv : s.vms.isEmpty
    · rw [List.isEmpty_iff] at hv
      simp [hv]
    · simp only [hv, Bool.false_eq_true, if_false]
      rfl
  · rw [firewallTeardownStage_snd s.firewalls,
      networkTeardownStage_snd s.networks]
    by_cases hv : s.vms.isEmpty
    · rw [List.isEmpty_iff] at hv
      simp [hv]
    · simp only [hv, Bool.false_eq_true, if_false,
        runThreaded_error_iff_any DeleteVm s.vms]

def specC1 : BenchmarkSpecState :=
  { name := "iperf"
    uid := "iperf0"
    vms := [⟨"vm-0", false, true, false, true, false⟩,
            ⟨"vm-1", false, true, false, false, false⟩]
    firewalls := [⟨"fw-0", true⟩, ⟨"fw-1", false⟩]
    networks := [⟨"net-0", true⟩, ⟨"net-1", false⟩]
    deleted := false
    _flags := some 7 }

/-- Witness for C1 on a concrete spec in which one VM deletion, one
firewall and one network raise: all four VM/firewall/network item lists
are still attempted in full, three log entries are emitted, and
`deleted` ends true. -/
theorem C1_teardown_swallows_errors_and_attempts_everything_witness :
    runStagePermitsTeardown "cleanup" = true ∧ specC1.deleted = false
    ∧ (specC1.Delete "cleanup").vmAttempted = ["vm-0", "vm-1"]
    ∧ (specC1.Delete "cleanup").fwAttempted = ["fw-0", "fw-1"]
    ∧ (specC1.Delete "cleanup").netAttempted = ["net-0", "net-1"]
    ∧ (specC1.Delete "cleanup").spec.deleted = true
    ∧ (specC1.Delete "cleanup").log =
        [vmTeardownLogMsg, firewallTeardownLogMsg, networkTeardownLogMsg] := by
  have h := C1_teardown_swallows_errors_and_attempts_everything "cleanup"
    specC1 (by decide) (by decide)
  exact ⟨by decide, by decide,
    h.1.trans (by decide),
    h.2.1.trans (by decide),
    h.2.2.1.trans (by decide),
    h.2.2.2.2.1,
    h.2.2.2.2.2.trans (by decide)⟩

/-- C2: `Delete` is idempotent.  When the run stage permits teardown,
the second of two consecutive `Delete` calls returns immediately (no VM,
firewall or network teardown call is attempted and the spec is
unchanged), because `deleted` is true after the first call; and for a
spec serialized by `PickleSpec` and deserialized by `GetSpecFromFile`,
the `deleted` flag is reset to false even if it was true at
serialization time, so one subsequent `Delete` on the resumed spec
attempts the full teardown (exactly once: a further call is again a
no-op). -/
theorem C2_delete_idempotent_and_resume_resets_deleted
    (run_stage : String) (s : BenchmarkSpecState)
    (hperm : runStagePermitsTeardown run_stage = true) :
    (((s.Delete run_stage).spec.Delete run_stage).spec
        = (s.Delete run_stage).spec
     ∧ ((s.Delete run_stage).spec.Delete run_stage).vmAttempted = []
     ∧ ((s.Delete run_stage).spec.Delete run_stage).fwAttempted = []
     ∧ ((s.Delete run_stage).spec.Delete run_stage).netAttempted = [])
    ∧ ((GetSpecFromFile (s.PickleSpec).1).deleted = false
     ∧ ((GetSpecFromFile (s.PickleSpec).1).Delete run_stage).vmAttempted
        = s.vms.map VmItem.vid
     ∧ ((GetSpecFromFile (s.PickleSpec).1).Delete run_stage).fwAttempted
        = s.firewalls.map FirewallItem.fid
     ∧ ((GetSpecFromFile (s.PickleSpec).1).Delete run_stage).netAttempted
        = s.networks.map NetworkItem.nid
     ∧ ((((GetSpecFromFile (s.PickleSpec).1).Delete run_stage).spec.Delete
          run_stage).vmAttempted = []
        ∧ (((GetSpecFromFile (s.PickleSpec).1).Delete run_stage).spec.Delete
          run_stage).fwAttempted = []
        ∧ (((GetSpecFromFile (s.PickleSpec).1).Delete run_stage).spec.Delete
          run_stage).netAttempted = [])) := by
  have hnoop : ∀ t : BenchmarkSpecState, t.deleted = true →
      t.Delete run_stage = ⟨t, [], [], [], []⟩ := by
    intro t ht
    unfold BenchmarkSpecState.Delete
    rw [ht]
    simp
  have hsetsTrue : ∀ t : BenchmarkSpecState,
      (t.Delete run_stage).spec.deleted = true := by
    intro t
    unfold BenchmarkSpecState.Delete
    by_cases ht : t.deleted
    · simp [ht]
    · simp [ht, hperm]
  have hresumed := C1_teardown_swallows_errors_and_attempts_everything
    run_stage (GetSpecFromFile (s.PickleSpec).1) hperm rfl
  have hvms : (GetSpecFromFile (s.PickleSpec).1).vms = s.vms := rfl
  have hfws : (GetSpecFromFile (s.PickleSpec).1).firewalls = s.firewalls := rfl
  have hnets : (GetSpecFromFile (s.PickleSpec).1).networks = s.networks := rfl
  refine ⟨⟨?_, ?_, ?_, ?_⟩, rfl, ?_, ?_, ?_, ?_, ?_, ?_⟩
  · rw [hnoop _ (hsetsTrue s)]
  · rw [hnoop _ (hsetsTrue s)]
  · rw [hnoop _ (hsetsTrue s)]
  · rw [hnoop _ (hsetsTrue s)]
  · exact hresumed.1.trans (by rw [hvms])
  · exact hresumed.2.1.trans (by rw [hfws])
  · exact hresumed.2.2.1.trans (by rw [hnets])
  · rw [hnoop _ (hsetsTrue _)]
  · rw [hnoop _ (hsetsTrue _)]
  · rw [hnoop _ (hsetsTrue _)]

def specC2 : BenchmarkSpecState :=
  { name := "netperf"
    uid := "netperf0"
    vms := [⟨"vm-a", false, true, false, false, false⟩]
    firewalls := [⟨"fw-a", false⟩]
    networks := [⟨"net-a", false⟩]
    deleted := true
    _flags := some 3 }

/-- Witness for C2 on a concrete spec whose `deleted` flag is true at
serialization time: the resumed spec has `deleted = false`, its first
`Delete` attempts the VM teardown, and a repeated `Delete` attempts
nothing. -/
theorem C2_delete_idempotent_and_resume_resets_deleted_witness :
    runStagePermitsTeardown "all" = true
    ∧ specC2.deleted = true
    ∧ ((specC2.Delete "all").spec.Delete "all").vmAttempted = []
    ∧ (GetSpecFromFile (specC2.PickleSpec).1).deleted = false
    ∧ ((GetSpecFromFile (specC2.PickleSpec).1).Delete "all").vmAttempted
        = ["vm-a"] := by
  have h := C2_delete_idempotent_and_resume_resets_deleted "all" specC2
    (by decide)
  exact ⟨by decide, by decide, h.1.2.1, h.2.1, h.2.2.1.trans (by decide)⟩

def vmC4 : GceVm := { name := "pkb-vm", max_local_disks := 2 }

def dsC4 : BaseDiskSpec :=
  { disk_type := some "ephemeral_ssd", num_striped_disks := 1 }

/-- Counterexample to C4: `disk.DiskTypeIsLocal` classifies
`ephemeral_ssd` as a local/ephemeral type, yet
`GceVirtualMachine.CreateScratchDisk` (which tests
`disk_spec.disk_type == disk.LOCAL`, i.e. the deprecated literal
`"local"` only) numbers an `ephemeral_ssd` disk in the REMOTE space: on
a fresh VM with `max_local_disks = 2` the disk receives number 3
(`= 1 + max_local_disks`) instead of the local number 1 the claim
requires for a local/ephemeral type. -/
theorem C4_counterexample :
    DiskTypeIsLocal "ephemeral_ssd" = true
    ∧ dsC4.disk_type = some "ephemeral_ssd"
    ∧ vmC4.CreateScratchDisk dsC4
        = .ok { name := "pkb-vm", max_local_disks := 2
                local_disk_counter := 0, remote_disk_counter := 1
                scratch_disks := [ScratchDiskEntry.single
                  ⟨"pkb-vm-data-0-0", some "ephemeral_ssd", 3⟩] }
    ∧ (3 : Nat) ≠ 1 := by
  refine ⟨rfl, rfl, rfl, by decide⟩

/-- C4 (amended): for every sequence of `CreateScratchDisk` calls on
one fresh VM, each disk whose requested type is exactly the deprecated
literal `"local"` (`disk.LOCAL`; the ephemeral types of
`DiskTypeIsLocal` are numbered as remote) receives the next sequential
local-disk number starting at 1 (0 reserved for the boot disk, and
never beyond `max_local_disks`), and each disk of any other type
receives the next sequential number starting at `1 + max_local_disks`,
independent of the local counter, so the local and remote number spaces
of a VM are disjoint contiguous sequences. -/
theorem C4_amended_disk_numbering (vm vmF : GceVm)
    (specs : List BaseDiskSpec)
    (h0 : vm.local_disk_counter = 0)
    (h1 : vm.remote_disk_counter = 0)
    (h2 : vm.scratch_disks = [])
    (hall : ∀ ds ∈ specs, 1 ≤ ds.num_striped_disks.toNat)
    (hok : vm.CreateScratchDisks specs = .ok vmF) :
    vmF.localDiskNumbers = List.range' 1 vmF.local_disk_counter
    ∧ vmF.remoteDiskNumbers
        = List.range' (vm.max_local_disks + 1) vmF.remote_disk_counter
    ∧ vmF.local_disk_counter ≤ vm.max_local_disks
    ∧ (∀ x ∈ vmF.localDiskNumbers, 1 ≤ x ∧ x ≤ vm.max_local_disks)
    ∧ (∀ y ∈ vmF.remoteDiskNumbers, vm.max_local_disks + 1 ≤ y)
    ∧ (∀ x ∈ vmF.localDiskNumbers, ∀ y ∈ vmF.remoteDiskNumbers,
        x < y) := by
  have hinv0 : vm.DiskNumberInvariant := by
    refine ⟨?_, ?_, by omega⟩
    · unfold GceVm.localDiskNumbers GceVm.allScratchMemberDisks
      rw [h2, h0]
      rfl
    · unfold GceVm.remoteDiskNumbers GceVm.allScratchMemberDisks
      rw [h2, h1]
      rfl
  obtain ⟨⟨hlf, hrf, hbf⟩, hmaxf⟩ :=
    createScratchDisks_invariant specs vm vmF hall hinv0 hok
  have hbound : vmF.local_disk_counter ≤ vm.max_local_disks := by
    rw [← hmaxf]
    exact hbf
  refine ⟨hlf, by rw [hrf, hmaxf], hbound, ?_, ?_, ?_⟩
  · intro x hx
    rw [hlf] at hx
    obtain ⟨j, hj, hxe⟩ := List.mem_range'.mp hx
    constructor <;> omega
  · intro y hy
    rw [hrf, hmaxf] at hy
    obtain ⟨j, hj, hye⟩ := List.mem_range'.mp hy
    omega
  · intro x hx y hy
    rw [hlf] at hx
    rw [hrf, hmaxf] at hy
    obtain ⟨j, hj, hxe⟩ := List.mem_range'.mp hx
    obtain ⟨k, hk, hye⟩ := List.mem_range'.mp hy
    omega

def vmC4w : GceVm := { name := "w", max_local_disks := 2 }

def specsC4w : List BaseDiskSpec :=
  [{ disk_type := some "local", num_striped_disks := 2 },
   { disk_type := some "standard", num_striped_disks := 1 }]

def vmC4wF : GceVm :=
  { name := "w", max_local_disks := 2, local_disk_counter := 2
    remote_disk_counter := 1
    scratch_disks :=
      [ScratchDiskEntry.striped
        [⟨"local-ssd-0", some "local", 1⟩, ⟨"local-ssd-1", some "local", 2⟩],
       ScratchDiskEntry.single ⟨"w-data-1-0", some "standard", 3⟩] }

/-- Witness for the amended C4: a striped pair of `"local"` disks then
one `"standard"` disk on a VM with two local slots yields local numbers
`[1, 2]` and remote number `[3]`. -/
theorem C4_amended_disk_numbering_witness :
    vmC4w.CreateScratchDisks specsC4w = .ok vmC4wF
    ∧ vmC4wF.localDiskNumbers = List.range' 1 vmC4wF.local_disk_counter
    ∧ vmC4wF.remoteDiskNumbers
        = List.range' (vmC4w.max_local_disks + 1) vmC4wF.remote_disk_counter
    ∧ vmC4wF.local_disk_counter ≤ vmC4w.max_local_disks
    ∧ vmC4wF.localDiskNumbers = [1, 2]
    ∧ vmC4wF.remoteDiskNumbers = [3] := by
  have hok : vmC4w.CreateScratchDisks specsC4w = .ok vmC4wF := rfl
  have h := C4_amended_disk_numbering vmC4w vmC4wF specsC4w rfl rfl rfl
    (by decide) hok
  exact ⟨hok, h.1, h.2.1, h.2.2.1, by decide, by decide⟩

/-- C5: a `CreateScratchDisk` call that would allocate a `"local"` disk
beyond the VM's `max_local_disks` limit raises the allocation error
`"Not enough local disks."`, and no additional disk is created for the
VM: the error-state VM has the same `scratch_disks` list as before (the
failing disk is not appended and `_CreateScratchDiskFromDisks` is never
invoked). -/
theorem C5_local_overflow_raises_and_creates_nothing
    (vm : GceVm) (ds : BaseDiskSpec)
    (hl : ds.disk_type = some LOCAL)
    (hlc : vm.local_disk_counter ≤ vm.max_local_disks)
    (hover : vm.max_local_disks
      < vm.local_disk_counter + ds.num_striped_disks.toNat) :
    vm.CreateScratchDisk ds
      = .error ("Not enough local disks.",
          { vm with local_disk_counter := vm.max_local_disks + 1 })
    ∧ ({ vm with local_disk_counter := vm.max_local_disks + 1 }
        : GceVm).scratch_disks = vm.scratch_disks := by
  constructor
  · unfold GceVm.CreateScratchDisk
    rw [scratchDiskLoop_local_overflow ds vm.name vm.scratch_disks.length
      vm.max_local_disks hl ds.num_striped_disks.toNat 0
      vm.local_disk_counter vm.remote_disk_counter [] hlc hover]
  · rfl

def vmC5 : GceVm :=
  { name := "v5", max_local_disks := 1
    scratch_disks := [ScratchDiskEntry.single ⟨"local-ssd-0", some "local", 1⟩]
    local_disk_counter := 1 }

def dsC5 : BaseDiskSpec :=
  { disk_type := some "local", num_striped_disks := 1 }

/-- Witness for C5: a VM with one local slot already used raises on the
next local disk request and its scratch disk list is unchanged. -/
theorem C5_local_overflow_raises_and_creates_nothing_witness :
    dsC5.disk_type = some LOCAL
    ∧ vmC5.local_disk_counter ≤ vmC5.max_local_disks
    ∧ vmC5.max_local_disks
        < vmC5.local_disk_counter + dsC5.num_striped_disks.toNat
    ∧ vmC5.CreateScratchDisk dsC5
        = .error ("Not enough local disks.",
            { vmC5 with local_disk_counter := 2 })
    ∧ ({ vmC5 with local_disk_counter := 2 } : GceVm).scratch_disks
        = vmC5.scratch_disks := by
  have h := C5_local_overflow_raises_and_creates_nothing vmC5 dsC5 rfl
    (by decide) (by decide)
  exact ⟨rfl, by decide, by decide, h.1, h.2⟩

def cloudFlagC3 : FlagEnum := ⟨true, "AWS", "GCP"⟩

def osTypeFlagC3 : FlagEnum := ⟨false, "debian", "debian"⟩

def groupC3 : GroupSpec := ⟨some "Azure", some "windows"⟩

/-- Witness for C3: with `--cloud=AWS` explicitly supplied the group's
configured cloud `Azure` is overridden, while the unsupplied `--os_type`
yields the group's configured `windows`. -/
theorem C3_cloud_os_resolution_precedence_witness :
    cloudFlagC3.present = true ∧ osTypeFlagC3.present = false
    ∧ _GetCloudForGroup cloudFlagC3 groupC3 = "AWS"
    ∧ _GetOsTypeForGroup osTypeFlagC3 groupC3 = "windows" := by
  have h := C3_cloud_os_resolution_precedence cloudFlagC3 osTypeFlagC3 groupC3
    (by decide) (by decide)
  exact ⟨rfl, rfl, h.1 rfl, h.2.2.2 rfl⟩

def flagsC8 : PkbFlags :=
  { disk_size := ⟨false, none⟩
    disk_type := ⟨false, none⟩
    num_striped_disks := ⟨false, some 1⟩
    scratch_dir := ⟨false, none⟩
    project := ⟨false, none⟩
    gce_num_local_ssds := ⟨false, 0⟩
    gce_preemptible_vms := ⟨false, false⟩
    image := ⟨false, none⟩
    machine_type := ⟨false, none⟩
    zone := ⟨false, none⟩ }

/-- Counterexample to C8: the `num_striped_disks` flag is NOT
explicitly supplied (its cell holds its default value 1), yet
`BaseDiskSpec.ApplyFlags` overwrites the spec's configured value 2 with
the flag value 1, because disk.py lines 139-144 overlay with Python
`or` (current-value truthiness), not with the `present` bit.  Under the
claim the configured value 2 would have had to survive. -/
theorem C8_counterexample :
    flagsC8.num_striped_disks.present = false
    ∧ (({ num_striped_disks := 2 } : BaseDiskSpec).ApplyFlags
        flagsC8).num_striped_disks = 1
    ∧ (1 : Int) ≠ 2 := by
  decide

/-- C8 (amended): `BaseDiskSpec.ApplyFlags` overwrites a spec field
exactly when the flag's CURRENT VALUE is truthy, independently of
whether the flag was explicitly supplied (the result does not depend on
any `present` bit), and keeps the spec value when the flag value is
falsy; `GceVmSpec.ApplyFlags` overwrites `num_local_ssds` and
`preemptible` exactly when their flags are explicitly present, and
`project` when `flags.project` is truthy. -/
theorem C8_amended_apply_flags_truthiness (s : BaseDiskSpec) (g : GceVmSpec)
    (f f2 : PkbFlags) :
    (f.disk_size.value = f2.disk_size.value →
     f.disk_type.value = f2.disk_type.value →
     f.num_striped_disks.value = f2.num_striped_disks.value →
     f.scratch_dir.value = f2.scratch_dir.value →
     s.ApplyFlags f = s.ApplyFlags f2)
    ∧ ((s.ApplyFlags f).disk_size =
        if pyTruthyOptInt f.disk_size.value then f.disk_size.value
        else s.disk_size)
    ∧ ((s.ApplyFlags f).disk_type =
        if pyTruthyOptStr f.disk_type.value then f.disk_type.value
        else s.disk_type)
    ∧ ((s.ApplyFlags f).mount_point =
        if pyTruthyOptStr f.scratch_dir.value then f.scratch_dir.value
        else s.mount_point)
    ∧ (pyTruthyOptInt f.num_striped_disks.value = false →
        (s.ApplyFlags f).num_striped_disks = s.num_striped_disks)
    ∧ (∀ n : Int, f.num_striped_disks.value = some n → n ≠ 0 →
        (s.ApplyFlags f).num_striped_disks = n)
    ∧ ((g.ApplyFlags f).num_local_ssds =
        if f.gce_num_local_ssds.present then f.gce_num_local_ssds.value
        else g.num_local_ssds)
    ∧ ((g.ApplyFlags f).preemptible =
        if f.gce_preemptible_vms.present then f.gce_preemptible_vms.value
        else g.preemptible)
    ∧ ((g.ApplyFlags f).project =
        if pyTruthyOptStr f.project.value then f.project.value
        else g.project) := by
  refine ⟨?_, rfl, rfl, rfl, ?_, ?_, rfl, rfl, rfl⟩
  · intro h1 h2 h3 h4
    unfold BaseDiskSpec.ApplyFlags pyOrOptInt pyOrOptStr pyOrIntFromOpt
    rw [h1, h2, h3, h4]
  · intro h
    unfold BaseDiskSpec.ApplyFlags pyOrIntFromOpt
    cases hv : f.num_striped_disks.value with
    | none => rfl
    | some n =>
      rw [hv] at h
      simp only [pyTruthyOptInt] at h
      simp [h]
  · intro n hn hne
    unfold BaseDiskSpec.ApplyFlags pyOrIntFromOpt
    rw [hn]
    simp [hne]

def specC8 : BaseDiskSpec :=
  { disk_size := some 100, num_striped_disks := 3, mount_point := some "/pkb" }

def gceSpecC8 : GceVmSpec :=
  { num_local_ssds := 4, preemptible := false, project := some "p1" }

def flagsC8b : PkbFlags :=
  { disk_size := ⟨true, some 500⟩
    disk_type := ⟨false, none⟩
    num_striped_disks := ⟨true, some 0⟩
    scratch_dir := ⟨false, none⟩
    project := ⟨false, some "p2"⟩
    gce_num_local_ssds := ⟨true, 2⟩
    gce_preemptible_vms := ⟨false, true⟩
    image := ⟨false, none⟩
    machine_type := ⟨false, none⟩
    zone := ⟨false, none⟩ }

/-- Witness for the amended C8 at a concrete spec and flag state: an
explicitly supplied falsy `num_striped_disks` does not overwrite, a
truthy `disk_size` does, a present `gce_num_local_ssds` does, a
non-present `gce_preemptible_vms` does not, and a truthy non-present
`project` does. -/
theorem C8_amended_apply_flags_truthiness_witness :
    pyTruthyOptInt flagsC8b.num_striped_disks.value = false
    ∧ (specC8.ApplyFlags flagsC8b).num_striped_disks = 3
    ∧ (specC8.ApplyFlags flagsC8b).disk_size = some 500
    ∧ (gceSpecC8.ApplyFlags flagsC8b).num_local_ssds = 2
    ∧ (gceSpecC8.ApplyFlags flagsC8b).preemptible = false
    ∧ (gceSpecC8.ApplyFlags flagsC8b).project = some "p2" := by
  have h := C8_amended_apply_flags_truthiness specC8 gceSpecC8 flagsC8b flagsC8b
  refine ⟨by decide, ?_, ?_, ?_, ?_, ?_⟩
  · exact (h.2.2.2.2.1 (by decide)).trans (by decide)
  · exact h.2.1.trans (by decide)
  · exact (h.2.2.2.2.2.2.1).trans (by decide)
  · exact (h.2.2.2.2.2.2.2.1).trans (by decide)
  · exact (h.2.2.2.2.2.2.2.2).trans (by decide)

/-- Counterexample to C6: the `ValueError` raised by
`ConstructVirtualMachines` for an unknown spec parameter
(benchmark_spec.py lines 197-201) is built from the `TypeError` message
alone, so it cannot identify the benchmark: for the bag
`{fake_colour: ...}` the error raised while constructing the specs of
benchmark `iperf` is byte-for-byte the error raised for benchmark
`netperf`, and its text does not mention the benchmark name. -/
theorem C6_counterexample :
    constructVmSpecForBenchmark "iperf" ["fake_colour"]
      = constructVmSpecForBenchmark "netperf" ["fake_colour"]
    ∧ constructVmSpecForBenchmark "iperf" ["fake_colour"]
      = .error ("Config contained an unexpected parameter. Error message:\n__init__() got an unexpected keyword argument fake_colour") :=
  ⟨rfl, rfl⟩

/-- C6 (amended): when a spec constructor in
`ConstructVirtualMachines` is given a parameter bag containing an
unknown key, construction raises a configuration error (`ValueError`)
that identifies the offending key via the embedded `TypeError` text —
but not the benchmark — and never silently ignores the key; parameter
bags containing only known parameters never raise this error. -/
theorem C6_amended_unknown_parameter_error (known bag : List String) :
    ((∃ k ∈ bag, k ∉ known) →
      ∃ k, k ∈ bag ∧ k ∉ known
        ∧ specConstructionStep known bag
          = .error (configUnexpectedParameterMsg (typeErrorMessage k)))
    ∧ ((∀ k ∈ bag, k ∈ known) →
        specConstructionStep known bag = .ok ()) := by
  constructor
  · intro hex
    have hsome : (firstUnknownKey known bag).isSome := by
      unfold firstUnknownKey
      rw [List.find?_isSome]
      obtain ⟨k, hk, hnk⟩ := hex
      exact ⟨k, hk, by simpa using hnk⟩
    obtain ⟨k0, hk0⟩ := Option.isSome_iff_exists.mp hsome
    refine ⟨k0, List.mem_of_find?_eq_some hk0, ?_, ?_⟩
    · have hp := List.find?_some hk0
      simpa using hp
    · unfold specConstructionStep constructSpecFromBag
      rw [hk0]
  · intro hall
    have hnone : firstUnknownKey known bag = none := by
      unfold firstUnknownKey
      rw [List.find?_eq_none]
      intro x hx
      simpa using hall x hx
    unfold specConstructionStep constructSpecFromBag
    rw [hnone]

/-- Witness for the amended C6: the GCE VM-spec key set rejects a bag
holding the unknown key `fake_colour` with an error naming that key,
and the disk-spec key set accepts a bag of known keys. -/
theorem C6_amended_unknown_parameter_error_witness :
    ("fake_colour" ∈ ["project", "fake_colour"]
      ∧ "fake_colour" ∉ gceVmSpecKeys)
    ∧ (∃ k, k ∈ ["project", "fake_colour"] ∧ k ∉ gceVmSpecKeys
        ∧ specConstructionStep gceVmSpecKeys ["project", "fake_colour"]
          = .error (configUnexpectedParameterMsg (typeErrorMessage k)))
    ∧ specConstructionStep baseDiskSpecKeys ["disk_size", "mount_point"]
        = .ok () := by
  refine ⟨⟨by decide, by decide⟩, ?_, ?_⟩
  · exact (C6_amended_unknown_parameter_error gceVmSpecKeys
      ["project", "fake_colour"]).1 ⟨"fake_colour", by decide, by decide⟩
  · exact (C6_amended_unknown_parameter_error baseDiskSpecKeys
      ["disk_size", "mount_point"]).2 (by decide)

theorem enumFrom_replicate {α : Type} :
    ∀ (n k : Nat) (a : α),
      (List.replicate n a).enumFrom k
        = (List.range' k n).map fun i => (i, a) := by
  intro n
  induction n with
  | zero => intro k a; rfl
  | succ n ih =>
    intro k a
    rw [List.replicate_succ, List.range'_succ, List.enumFrom_cons,
      List.map_cons, ih]

theorem makeVmDiskSpecs_truthy (ds : BaseDiskSpec) (m : String) (n : Nat)
    (hm : ds.mount_point = some m) (hm2 : m ≠ "") (hn : 1 < n) :
    makeVmDiskSpecs ds n = (List.range n).map fun i =>
      { ds with mount_point := some (m ++ toString i) } := by
  unfold makeVmDiskSpecs
  rw [if_pos ⟨hn, by rw [hm]; simpa [pyTruthyOptStr] using hm2⟩]
  rw [show (List.replicate n ds).enum
      = (List.range n).map (fun i => (i, ds)) from by
    rw [show List.enum (List.replicate n ds)
        = (List.replicate n ds).enumFrom 0 from rfl]
    rw [enumFrom_replicate]
    rw [List.range_eq_range']]
  rw [List.map_map]
  congr 1
  funext i
  simp only [Function.comp]
  rw [hm]
  rfl

/-- C7: in `ConstructVirtualMachines`, for every VM whose group
requests more than one disk from a single disk spec with a (truthy)
mount point, the i-th per-VM disk spec copy has the index `i` appended
to its mount point while every other field equals the shared spec;
when only one disk is requested or no mount point is set the copies
are untouched; and every dynamic VM of the group receives a list
computed from the same unmutated shared spec, so sibling VMs cannot
observe each other's suffixes. -/
theorem C7_mount_point_disambiguation (ds : BaseDiskSpec) (n : Nat) :
    (∀ m : String, ds.mount_point = some m → m ≠ "" → 1 < n →
      ∀ i, i < n →
        (makeVmDiskSpecs ds n)[i]?
          = some { ds with mount_point := some (m ++ toString i) })
    ∧ ((n ≤ 1 ∨ pyTruthyOptStr ds.mount_point = false) →
        makeVmDiskSpecs ds n = List.replicate n ds)
    ∧ (∀ (vm_count : Nat) (static_vms : Option (List StaticVmDescr))
        (i : Nat) (dsl : List BaseDiskSpec),
        (constructGroupVms vm_count n static_vms (some ds))[i]?
            = some (ConstructedVm.dynamicVm dsl) →
        dsl = makeVmDiskSpecs ds n) := by
  refine ⟨?_, ?_, ?_⟩
  · intro m hm hm2 hn i hi
    rw [makeVmDiskSpecs_truthy ds m n hm hm2 hn]
    rw [List.getElem?_map, List.getElem?_range hi]
    rfl
  · intro h
    unfold makeVmDiskSpecs
    rw [if_neg]
    intro hc
    rcases h with h1 | h2
    · omega
    · rw [h2] at hc
      exact absurd hc.2 (by decide)
  · intro vm_count static_vms i dsl hget
    have hmem := List.getElem?_mem hget
    unfold constructGroupVms at hmem
    rcases List.mem_append.mp hmem with hs | hd
    · exfalso
      cases static_vms with
      | none => exact absurd hs (by simp [staticGroupVms])
      | some l =>
        unfold staticGroupVms at hs
        obtain ⟨d, _, habs⟩ := List.mem_map.mp hs
        exact ConstructedVm.noConfusion habs
    · obtain ⟨j, _, habs⟩ := List.mem_map.mp hd
      injection habs with habs
      exact habs.symm

def dsC7 : BaseDiskSpec := { mount_point := some "/scratch" }

def dsC7single : BaseDiskSpec :=
  { mount_point := some "/scratch", disk_type := some "standard" }

/-- Witness for C7: three copies of a spec mounted at `/scratch` get
mount points `/scratch0`, `/scratch1`, `/scratch2`; a single copy is
left untouched. -/
theorem C7_mount_point_disambiguation_witness :
    dsC7.mount_point = some "/scratch"
    ∧ (makeVmDiskSpecs dsC7 3)[0]?
        = some { dsC7 with mount_point := some "/scratch0" }
    ∧ (makeVmDiskSpecs dsC7 3)[2]?
        = some { dsC7 with mount_point := some "/scratch2" }
    ∧ makeVmDiskSpecs dsC7single 1 = [dsC7single] := by
  have h := C7_mount_point_disambiguation dsC7 3
  have h1 := C7_mount_point_disambiguation dsC7single 1
  exact ⟨rfl,
    (h.1 "/scratch" rfl (by decide) (by decide) 0 (by decide)).trans
      (by decide),
    (h.1 "/scratch" rfl (by decide) (by decide) 2 (by decide)).trans
      (by decide),
    (h1.2.1 (Or.inl (by decide))).trans (by decide)⟩

/-- C10: for every group configuration with resolved VM count `N`,
`ConstructVirtualMachines` produces exactly `N` VMs for the group:
excess static descriptors beyond `N` are silently dropped (the first
`N` are instantiated, each from its own descriptor), exactly
`N - min(len(static), N)` dynamic VMs are synthesized to reach `N`, and
all static VMs precede all dynamic VMs; an absent static list behaves
like an empty one.  The first three conjuncts record the resolution of
the configured VM count (absent key, key bound to `None`, explicit
value). -/
theorem C10_construct_group_vm_count (num_vms_flag k disk_count : Nat)
    (static_list : List StaticVmDescr) (disk_spec : Option BaseDiskSpec) :
    resolveVmCount none num_vms_flag = 1
    ∧ resolveVmCount (some none) num_vms_flag = num_vms_flag
    ∧ resolveVmCount (some (some k)) num_vms_flag = k
    ∧ ∀ N : Nat,
        (constructGroupVms N disk_count (some static_list) disk_spec).length
            = N
        ∧ (∀ i, i < min static_list.length N →
            (constructGroupVms N disk_count (some static_list) disk_spec)[i]?
              = (static_list[i]?).map ConstructedVm.staticVm)
        ∧ (∀ i, min static_list.length N ≤ i → i < N →
            (constructGroupVms N disk_count (some static_list) disk_spec)[i]?
              = some (ConstructedVm.dynamicVm
                  (match disk_spec with
                   | some ds => makeVmDiskSpecs ds disk_count
                   | none => [])))
        ∧ constructGroupVms N disk_count none disk_spec
            = constructGroupVms N disk_count (some []) disk_spec := by
  refine ⟨rfl, rfl, rfl, ?_⟩
  intro N
  have hsred : staticGroupVms N (some static_list)
      = (static_list.take N).map ConstructedVm.staticVm := rfl
  have hslen : (staticGroupVms N (some static_list)).length
      = min N static_list.length := by
    rw [hsred, List.length_map, List.length_take]
  refine ⟨?_, ?_, ?_, ?_⟩
  · unfold constructGroupVms
    rw [List.length_append, hslen, List.length_map, List.length_range]
    omega
  · intro i hi
    unfold constructGroupVms
    rw [List.getElem?_append_left (by rw [hslen]; omega)]
    rw [hsred, List.getElem?_map]
    rw [List.getElem?_take_of_lt (by omega)]
  · intro i hlo hhi
    unfold constructGroupVms
    rw [List.getElem?_append_right (by rw [hslen]; omega)]
    rw [List.getElem?_map]
    rw [List.getElem?_range (by omega)]
    rfl
  · unfold constructGroupVms
    simp [staticGroupVms]

def staticsC10 : List StaticVmDescr := [⟨"s0"⟩, ⟨"s1"⟩, ⟨"s2"⟩]

/-- Witness for C10: a group with three static descriptors and `N = 2`
keeps only the first two descriptors; with `N = 4` it appends two
dynamic VMs after the three static ones. -/
theorem C10_construct_group_vm_count_witness :
    (constructGroupVms 2 1 (some staticsC10) none).length = 2
    ∧ (constructGroupVms 2 1 (some staticsC10) none)[1]?
        = some (ConstructedVm.staticVm ⟨"s1"⟩)
    ∧ (constructGroupVms 4 1 (some staticsC10) none).length = 4
    ∧ (constructGroupVms 4 1 (some staticsC10) none)[2]?
        = some (ConstructedVm.staticVm ⟨"s2"⟩)
    ∧ (constructGroupVms 4 1 (some staticsC10) none)[3]?
        = some (ConstructedVm.dynamicVm []) := by
  have h2 := (C10_construct_group_vm_count 1 0 1 staticsC10 none).2.2.2 2
  have h4 := (C10_construct_group_vm_count 1 0 1 staticsC10 none).2.2.2 4
  refine ⟨h2.1, ?_, h4.1, ?_, ?_⟩
  · exact (h2.2.1 1 (by decide)).trans (by decide)
  · exact (h4.2.1 2 (by decide)).trans (by decide)
  · exact (h4.2.2.1 3 (by decide) (by decide)).trans (by decide)

end PKB
